import Mathlib

/-
Verification development for the Smart-Archiving-System repository
(src/bot.py, src/topic_manager.py, src/drive_uploader.py).

The Python code is shallowly embedded: Python dicts become insertion-ordered
association lists (`List (κ × β)` with `lookupA` / `setA` / `removeA`
mirroring dict read, dict assignment, and `del`); exceptions become
`Except`-valued results; the asyncio event loop and `asyncio.sleep`-based
debounce timers become an explicit step semantics on an `AggState` record
(buffer dict, scheduled-task dict with deadlines, and a log of completed
flushes); files on disk become explicit fields of the state records.
-/

set_option maxRecDepth 4096

/-- Dict read (`d.get(key)` / `d[key]` guarded by `key in d`): first entry
whose key matches. Python dict keys are unique, so first-match is exact. -/
def lookupA {κ β : Type} [DecidableEq κ] : List (κ × β) → κ → Option β
  | [], _ => none
  | (k, v) :: rest, key => if k = key then some v else lookupA rest key

/-- Dict assignment `d[key] = val`: update the entry in place if the key is
present (Python dicts keep insertion order on update), else append. -/
def setA {κ β : Type} [DecidableEq κ] (key : κ) (val : β) : List (κ × β) → List (κ × β)
  | [] => [(key, val)]
  | (k, v) :: rest => if k = key then (k, val) :: rest else (k, v) :: setA key val rest

/-- Dict deletion `del d[key]`: drop the entry with that key. -/
def removeA {κ β : Type} [DecidableEq κ] (key : κ) : List (κ × β) → List (κ × β)
  | [] => []
  | (k, v) :: rest => if k = key then removeA key rest else (k, v) :: removeA key rest

@[simp] theorem lookupA_nil {κ β : Type} [DecidableEq κ] (key : κ) :
    lookupA ([] : List (κ × β)) key = none := rfl

@[simp] theorem lookupA_cons {κ β : Type} [DecidableEq κ] (k key : κ) (v : β)
    (rest : List (κ × β)) :
    lookupA ((k, v) :: rest) key = if k = key then some v else lookupA rest key := rfl

@[simp] theorem lookupA_setA_self {κ β : Type} [DecidableEq κ] (key : κ) (val : β)
    (l : List (κ × β)) : lookupA (setA key val l) key = some val := by
  induction l with
  | nil => simp [setA]
  | cons hd tl ih =>
    obtain ⟨k, v⟩ := hd
    by_cases h : k = key <;> simp [setA, h, ih]

theorem lookupA_setA_ne {κ β : Type} [DecidableEq κ] (key key' : κ) (val : β)
    (l : List (κ × β)) (h : key ≠ key') :
    lookupA (setA key val l) key' = lookupA l key' := by
  induction l with
  | nil => simp [setA, h]
  | cons hd tl ih =>
    obtain ⟨k, v⟩ := hd
    by_cases hk : k = key
    · subst hk
      simp [setA, h]
    · simp [setA, hk, ih]

@[simp] theorem lookupA_removeA_self {κ β : Type} [DecidableEq κ] (key : κ)
    (l : List (κ × β)) : lookupA (removeA key l) key = none := by
  induction l with
  | nil => simp [removeA]
  | cons hd tl ih =>
    obtain ⟨k, v⟩ := hd
    by_cases h : k = key <;> simp [removeA, h, ih]

/-
Aggregation Engine (src/bot.py lines 43-47 and 300-383).

Globals `_media_group_buffer : dict[str, list]`, `_media_group_tasks`, and
`MEDIA_GROUP_DELAY_SEC` become an `AggState` plus a window parameter `w`.
Buffered members (`(message, context)` tuples) are opaque to the grouping
logic, so the member type is a parameter `α`.  Completed flushes (calls of
`upload_media_group` with the collected entries, in insertion order) are
recorded in `flushes`.  Time is a `Nat`; a scheduled task is its
`(group_key, deadline)` pair, deadline = arrival time of the first member
plus the window (`asyncio.sleep(MEDIA_GROUP_DELAY_SEC)` started when the
first member arrives).
-/

/-- State of the media-group aggregation engine: live buffer, scheduled
flush tasks with their deadlines, and the log of completed flushes. -/
structure AggState (α : Type) where
  buffer : List (String × List α)
  tasks : List (String × Nat)
  flushes : List (String × List α)
deriving DecidableEq

/-- One attachment arrival (`handle_media_with_group`, src/bot.py 368-383),
for a message carrying `media_group_id = k` at time `t`: if the key is not
buffered, create an empty entry and schedule a flush at `t + w`
(`schedule_media_group`); then append the member.  An existing entry is
only appended to - its scheduled task is never touched. -/
def arrive {α : Type} (w : Nat) (s : AggState α) (k : String) (m : α) (t : Nat) : AggState α :=
  match lookupA s.buffer k with
  | none =>
      { buffer := setA k [m] s.buffer
        tasks := setA k (t + w) s.tasks
        flushes := s.flushes }
  | some ms => { s with buffer := setA k (ms ++ [m]) s.buffer }

/-- Timer expiry for key `k` (`process_media_group`, src/bot.py 300-339):
under the lock, pop the buffer entry and delete the task; if no entry
exists, return.  A non-empty entry list is uploaded as one batch in
insertion order (recorded in `flushes`); an empty one is dropped. -/
def fireTimer {α : Type} (s : AggState α) (k : String) : AggState α :=
  match lookupA s.buffer k with
  | none => s
  | some ms =>
      if ms.isEmpty then
        { buffer := removeA k s.buffer, tasks := removeA k s.tasks, flushes := s.flushes }
      else
        { buffer := removeA k s.buffer, tasks := removeA k s.tasks
          flushes := s.flushes ++ [(k, ms)] }

/-- Fire every scheduled task whose deadline has been reached by time `t`,
in scheduling order (the event loop runs each expired `asyncio.sleep`
continuation before handling an event arriving at `t`). -/
def fireDue {α : Type} (s : AggState α) (t : Nat) : AggState α :=
  (s.tasks.filter (fun kd => kd.2 ≤ t)).foldl (fun st kd => fireTimer st kd.1) s

/-- Process one timed arrival event `(key, member, time)`: first run all
timers due by that time, then perform the arrival. -/
def runStep {α : Type} (w : Nat) (s : AggState α) (ev : String × α × Nat) : AggState α :=
  arrive w (fireDue s ev.2.2) ev.1 ev.2.1 ev.2.2

/-- Fire all still-scheduled timers, in scheduling order (time advances past
every deadline with no further arrivals). -/
def drain {α : Type} (s : AggState α) : AggState α :=
  s.tasks.foldl (fun st kd => fireTimer st kd.1) s

/-- Run a whole timeline: process the timed arrivals in order from the empty
state, then let every remaining timer fire. -/
def runAll {α : Type} (w : Nat) (evs : List (String × α × Nat)) : AggState α :=
  drain (evs.foldl (runStep w) ⟨[], [], []⟩)

example : (runAll 15 [("G1", (1 : Nat), 0), ("G1", 2, 5), ("G1", 3, 10)]).flushes
    = [("G1", [1, 2, 3])] := by decide

example : (runAll 15 [("G1", (1 : Nat), 0), ("G1", 2, 5), ("G1", 3, 10)]).tasks = [] := by
  decide

theorem fireDue_single_not_due {α : Type} (s : AggState α) (k : String) (D t : Nat)
    (hs : s.tasks = [(k, D)]) (h : t < D) : fireDue s t = s := by
  have hd : decide (D ≤ t) = false := decide_eq_false (Nat.not_le.mpr h)
  simp [fireDue, hs, List.filter, hd]

/-- While a group is collecting (sole live entry `(k, ms)`, sole task
`(k, D)`), processing further arrivals for the same key that all land
strictly before the deadline only appends members: the buffer accumulates
them in order and the task deadline is untouched. -/
theorem foldl_runStep_collect {α : Type} (w D : Nat) (k : String) (F : List (String × List α))
    (evs : List (String × α × Nat)) (ms : List α)
    (h : ∀ e ∈ evs, e.1 = k ∧ e.2.2 < D) :
    evs.foldl (runStep w) ⟨[(k, ms)], [(k, D)], F⟩ =
      ⟨[(k, ms ++ evs.map (fun e => e.2.1)), ], [(k, D)], F⟩ := by
  induction evs generalizing ms with
  | nil => simp
  | cons e rest ih =>
    obtain ⟨k', m, t⟩ := e
    obtain ⟨hk, ht⟩ := h _ (List.mem_cons_self _ _)
    simp only at hk ht
    subst k'
    have hstep :
        runStep w (⟨[(k, ms)], [(k, D)], F⟩ : AggState α) (k, m, t) =
          ⟨[(k, ms ++ [m])], [(k, D)], F⟩ := by
      rw [runStep, fireDue_single_not_due _ k D t rfl ht]
      simp [arrive, setA]
    rw [List.foldl_cons, hstep,
      ih (ms ++ [m]) (fun e he => h e (List.mem_cons_of_mem _ he))]
    simp

/-- C1: for any group_key `k`, if all later arrivals carry key `k` and land
strictly within the debounce window anchored at the first arrival `t0`
(time < t0 + w), then the run produces exactly one flush for the group,
its batch holds all members in arrival order, and after every non-empty
prefix of arrivals the single scheduled deadline is still `t0 + w` (fixed
at first arrival, never rescheduled by later arrivals). -/
theorem debounce_single_flush {α : Type} (w : Nat) (k : String) (m0 : α) (t0 : Nat)
    (rest : List (String × α × Nat))
    (h : ∀ e ∈ rest, e.1 = k ∧ e.2.2 < t0 + w) :
    (runAll w ((k, m0, t0) :: rest)).flushes
        = [(k, ((k, m0, t0) :: rest).map (fun e => e.2.1))] ∧
      (runAll w ((k, m0, t0) :: rest)).buffer = [] ∧
      (runAll w ((k, m0, t0) :: rest)).tasks = [] ∧
      ∀ i, 0 < i →
        ((((k, m0, t0) :: rest).take i).foldl (runStep w)
            (⟨[], [], []⟩ : AggState α)).tasks = [(k, t0 + w)] := by
  have hfirst :
      runStep w (⟨[], [], []⟩ : AggState α) (k, m0, t0) =
        ⟨[(k, [m0])], [(k, t0 + w)], []⟩ := by
    simp [runStep, fireDue, arrive, setA]
  have hfold :
      ((k, m0, t0) :: rest).foldl (runStep w) (⟨[], [], []⟩ : AggState α) =
        ⟨[(k, [m0] ++ rest.map (fun e => e.2.1))], [(k, t0 + w)], []⟩ := by
    rw [List.foldl_cons, hfirst, foldl_runStep_collect w (t0 + w) k [] rest [m0] h]
  refine ⟨?_, ?_, ?_, ?_⟩
  · rw [runAll, hfold]
    simp [drain, fireTimer, removeA]
  · rw [runAll, hfold]
    simp [drain, fireTimer, removeA]
  · rw [runAll, hfold]
    simp [drain, fireTimer, removeA]
  · intro i hi
    obtain ⟨j, rfl⟩ := Nat.exists_eq_add_of_lt hi
    have hij : 0 + j + 1 = j + 1 := by omega
    rw [hij, List.take_succ_cons, List.foldl_cons, hfirst,
      foldl_runStep_collect w (t0 + w) k [] (rest.take j) [m0]
        (fun e he => h e (List.mem_of_mem_take he))]

/-- Witness for C1 at the spec's own example timeline (three arrivals for
"G1" at times 0, 5, 10 with window 15, in tenths of a second): one flush
with all three members in order, and the deadline after the first two
arrivals is still 15. -/
theorem debounce_single_flush_witness :
    (runAll 15 [("G1", (1 : Nat), 0), ("G1", 2, 5), ("G1", 3, 10)]).flushes
        = [("G1", [1, 2, 3])] ∧
      (([("G1", (1 : Nat), 0), ("G1", 2, 5), ("G1", 3, 10)].take 2).foldl (runStep 15)
          (⟨[], [], []⟩ : AggState Nat)).tasks = [("G1", 15)] := by
  have h := debounce_single_flush 15 "G1" (1 : Nat) 0 [("G1", 2, 5), ("G1", 3, 10)]
    (by decide)
  exact ⟨h.1, h.2.2.2 2 (by decide)⟩

/-- C2: once a flush for key `k` has begun (the `process_media_group` step
popped the group from the live set, modelled by `fireTimer`), an arrival
for the same key starts a brand-new group: the live entry for `k` is
exactly the new member, a fresh deadline `t + w` is scheduled, and the
already-flushed batches are left untouched. -/
theorem late_arrival_new_group {α : Type} (w : Nat) (s : AggState α) (k : String)
    (m : α) (t : Nat) :
    lookupA (arrive w (fireTimer s k) k m t).buffer k = some [m] ∧
      lookupA (arrive w (fireTimer s k) k m t).tasks k = some (t + w) ∧
      (arrive w (fireTimer s k) k m t).flushes = (fireTimer s k).flushes := by
  have hb : lookupA (fireTimer s k).buffer k = none := by
    rw [fireTimer]
    cases hl : lookupA s.buffer k with
    | none => simpa using hl
    | some ms =>
      by_cases he : ms.isEmpty <;> simp [he]
  rw [arrive, hb]
  refine ⟨?_, ?_, rfl⟩ <;> simp

/-
State Store (src/topic_manager.py).

A topic is the dict built by `add_topic` or loaded from topics.json; the
`drive_folder_id` / `hashtag` / `description` keys may be absent in loaded
data, hence `Option`.  `TopicManager` carries the two in-memory dicts, the
configured default folder, and the current contents of the two backing
files (`topics.json` as the list of topic records that `_save_topics`
writes, `user_topics.json` as a `UserFile`).
-/

/-- One topic record (a Python dict with a mandatory `name` key). -/
structure Topic where
  name : String
  drive_folder_id : Option String
  hashtag : Option String
  description : Option String
deriving DecidableEq

/-- Contents of the user-state file: missing, unparseable (json.load or the
int(...) key conversion raises), or a parsed user_id -> topic_name map. -/
inductive UserFile
  | absent
  | malformed
  | stored (entries : List (Nat × String))
deriving DecidableEq

/-- State of a `TopicManager` instance plus its two backing files. -/
structure TopicManager where
  topics : List (String × Topic)
  user_states : List (Nat × String)
  default_folder_id : Option String
  topics_disk : List Topic
  user_disk : UserFile
deriving DecidableEq

/-- Python `a or b` on an optional string: `None` and `""` are falsy. -/
def pyOrStr : Option String → String → String
  | some s, d => if s = "" then d else s
  | none, d => d

/-- src/topic_manager.py 123-134: `get_topic` is a dict lookup. -/
def get_topic (tm : TopicManager) (topic_name : String) : Option Topic :=
  lookupA tm.topics topic_name

/-- src/topic_manager.py 85-104: `_load_user_states`, run at startup.
Returns the in-memory mapping together with the resulting file contents: a
parsed file is used as-is; a missing file yields an empty mapping that
`_save_user_states` writes back; a raise from parsing is caught and yields
an empty mapping with no write. -/
def load_user_states : UserFile → List (Nat × String) × UserFile
  | .stored entries => (entries, .stored entries)
  | .absent => ([], .stored [])
  | .malformed => ([], .malformed)

/-- src/topic_manager.py 146-168: `set_user_topic` validates the topic via
`get_topic` (`if not topic: return False`; a topic dict always has at least
its `name` key, so it is truthy exactly when the lookup succeeds), then
assigns the user entry and saves the whole mapping. -/
def set_user_topic (tm : TopicManager) (user_id : Nat) (topic_name : String) :
    Bool × TopicManager :=
  match get_topic tm topic_name with
  | none => (false, tm)
  | some _ =>
      let us := setA user_id topic_name tm.user_states
      (true, { tm with user_states := us, user_disk := .stored us })

/-- src/topic_manager.py 170-181: `get_user_topic` is a dict lookup. -/
def get_user_topic (tm : TopicManager) (user_id : Nat) : Option String :=
  lookupA tm.user_states user_id

/-- The `if topic_name: ... return topic['drive_folder_id']` half of
`get_folder_id_for_user` (src/topic_manager.py 193-198): the folder id of
the selected topic, provided the stored selection is truthy (non-empty
string), the topic is in the catalog, and it has a `drive_folder_id` key. -/
def selected_folder_id (tm : TopicManager) (user_id : Nat) : Option String :=
  match get_user_topic tm user_id with
  | some topic_name =>
      if topic_name ≠ "" then
        match get_topic tm topic_name with
        | some topic => topic.drive_folder_id
        | none => none
      else none
  | none => none

/-- src/topic_manager.py 183-205: `get_folder_id_for_user` returns the
selected topic's folder when resolvable, else the default folder when that
is truthy (`if self.default_folder_id:`), else raises ValueError
(modelled as `Except.error ()`). -/
def get_folder_id_for_user (tm : TopicManager) (user_id : Nat) : Except Unit String :=
  match selected_folder_id tm user_id with
  | some fid => .ok fid
  | none =>
      match tm.default_folder_id with
      | some d => if d ≠ "" then .ok d else .error ()
      | none => .error ()

/-- src/topic_manager.py 239-274: `add_topic` rejects an existing name,
otherwise builds the topic dict (with Python `or` defaults for hashtag and
description), inserts it, and saves the catalog (`_save_topics` writes
`list(self.topics.values())`). -/
def add_topic (tm : TopicManager) (name : String) (drive_folder_id : String)
    (hashtag : Option String) (description : Option String) : Bool × TopicManager :=
  match lookupA tm.topics name with
  | some _ => (false, tm)
  | none =>
      let topic : Topic :=
        { name := name
          drive_folder_id := some drive_folder_id
          hashtag := some (pyOrStr hashtag ("#" ++ name))
          description := some (pyOrStr description (name ++ " related content")) }
      let ts := setA name topic tm.topics
      (true, { tm with topics := ts, topics_disk := ts.map (fun p => p.2) })

/-- C3: `set_user_topic` with a name absent from the catalog returns the
failure flag and leaves the whole state - user mapping and both backing
files - untouched; with a name present in the catalog it succeeds, maps
the user to that name while leaving every other user's entry alone, and
persists exactly the updated mapping. -/
theorem set_user_topic_contract (tm : TopicManager) (user_id : Nat) (topic_name : String) :
    (get_topic tm topic_name = none →
      set_user_topic tm user_id topic_name = (false, tm)) ∧
    (∀ t, get_topic tm topic_name = some t →
      (set_user_topic tm user_id topic_name).1 = true ∧
      lookupA (set_user_topic tm user_id topic_name).2.user_states user_id
        = some topic_name ∧
      (∀ v, v ≠ user_id →
        lookupA (set_user_topic tm user_id topic_name).2.user_states v
          = lookupA tm.user_states v) ∧
      (set_user_topic tm user_id topic_name).2.user_disk
        = .stored (set_user_topic tm user_id topic_name).2.user_states ∧
      (set_user_topic tm user_id topic_name).2.topics = tm.topics) := by
  constructor
  · intro h
    simp [set_user_topic, h]
  · intro t ht
    refine ⟨by simp [set_user_topic, ht], by simp [set_user_topic, ht], ?_,
      by simp [set_user_topic, ht], by simp [set_user_topic, ht]⟩
    intro v hv
    simp only [set_user_topic, ht]
    exact lookupA_setA_ne _ _ _ _ (fun he => hv he.symm)

/-- Witness for C3: with a one-topic catalog, selecting an unknown name
fails and changes nothing, and selecting the known name succeeds, updates
user 7, and persists the new mapping. -/
theorem set_user_topic_contract_witness :
    set_user_topic
        ⟨[("work", ⟨"work", some "F1", none, none⟩)], [], none, [], .stored []⟩ 7 "nope"
      = (false, ⟨[("work", ⟨"work", some "F1", none, none⟩)], [], none, [], .stored []⟩) ∧
    (set_user_topic
        ⟨[("work", ⟨"work", some "F1", none, none⟩)], [], none, [], .stored []⟩ 7 "work").2.user_disk
      = .stored [(7, "work")] := by
  constructor
  · exact (set_user_topic_contract
      ⟨[("work", ⟨"work", some "F1", none, none⟩)], [], none, [], .stored []⟩ 7 "nope").1
      (by decide)
  · have h := ((set_user_topic_contract
      ⟨[("work", ⟨"work", some "F1", none, none⟩)], [], none, [], .stored []⟩ 7 "work").2
      ⟨"work", some "F1", none, none⟩ (by decide)).2.2.2.1
    rw [h]
    decide

/-- C9: `add_topic` with a name already in the catalog returns the failure
flag and leaves the whole state - catalog and backing files - untouched;
with a fresh name it succeeds, the new record (with the Python `or`
defaults) is in the catalog, every other name is untouched, and the full
catalog is persisted. -/
theorem add_topic_contract (tm : TopicManager) (name drive_folder_id : String)
    (hashtag description : Option String) :
    ((∃ t, lookupA tm.topics name = some t) →
      add_topic tm name drive_folder_id hashtag description = (false, tm)) ∧
    (lookupA tm.topics name = none →
      (add_topic tm name drive_folder_id hashtag description).1 = true ∧
      lookupA (add_topic tm name drive_folder_id hashtag description).2.topics name
        = some ⟨name, some drive_folder_id, some (pyOrStr hashtag ("#" ++ name)),
            some (pyOrStr description (name ++ " related content"))⟩ ∧
      (∀ n, n ≠ name →
        lookupA (add_topic tm name drive_folder_id hashtag description).2.topics n
          = lookupA tm.topics n) ∧
      (add_topic tm name drive_folder_id hashtag description).2.topics_disk
        = (add_topic tm name drive_folder_id hashtag description).2.topics.map
            (fun p => p.2) ∧
      (add_topic tm name drive_folder_id hashtag description).2.user_states
        = tm.user_states) := by
  constructor
  · rintro ⟨t, ht⟩
    simp [add_topic, ht]
  · intro h
    refine ⟨by simp [add_topic, h], by simp [add_topic, h], ?_,
      by simp [add_topic, h], by simp [add_topic, h]⟩
    intro n hn
    simp only [add_topic, h]
    exact lookupA_setA_ne _ _ _ _ (fun he => hn he.symm)

/-- Witness for C9: re-adding "work" fails and changes nothing; adding the
fresh name "news" succeeds and is persisted with its defaults. -/
theorem add_topic_contract_witness :
    add_topic ⟨[("work", ⟨"work", some "F1", none, none⟩)], [], none, [], .stored []⟩
        "work" "F2" none none
      = (false, ⟨[("work", ⟨"work", some "F1", none, none⟩)], [], none, [], .stored []⟩) ∧
    lookupA (add_topic
        ⟨[("work", ⟨"work", some "F1", none, none⟩)], [], none, [], .stored []⟩
        "news" "F2" none none).2.topics "news"
      = some ⟨"news", some "F2", some "#news", some "news related content"⟩ := by
  constructor
  · exact (add_topic_contract
      ⟨[("work", ⟨"work", some "F1", none, none⟩)], [], none, [], .stored []⟩
      "work" "F2" none none).1 ⟨⟨"work", some "F1", none, none⟩, by decide⟩
  · have h := ((add_topic_contract
      ⟨[("work", ⟨"work", some "F1", none, none⟩)], [], none, [], .stored []⟩
      "news" "F2" none none).2 (by decide)).2.1
    rw [h]
    rfl

/-- Counterexample to C8: the round trip fails for the empty topic name.
Starting from the empty store with no default folder, `add_topic "" "F1"`
succeeds and `set_user_topic 42 ""` succeeds, yet `get_folder_id_for_user`
raises (the stored selection `""` is falsy in `if topic_name:`), instead
of returning "F1" as the claim demands. -/
theorem add_set_resolve_empty_name_cex :
    (add_topic ⟨[], [], none, [], .stored []⟩ "" "F1" none none).1 = true ∧
    (set_user_topic (add_topic ⟨[], [], none, [], .stored []⟩ "" "F1" none none).2
        42 "").1 = true ∧
    get_folder_id_for_user
        (set_user_topic (add_topic ⟨[], [], none, [], .stored []⟩ "" "F1" none none).2
          42 "").2 42
      = .error () := by
  exact ⟨rfl, rfl, rfl⟩

/-- C8 as amended: for every NON-EMPTY topic name `n` absent from the
catalog, `add_topic n d` succeeds, then `set_user_topic u n` succeeds, and
`get_folder_id_for_user u` then returns exactly `d`. -/
theorem add_set_resolve_roundtrip (tm : TopicManager) (u : Nat) (n d : String)
    (hashtag description : Option String)
    (habs : lookupA tm.topics n = none) (hn : n ≠ "") :
    (add_topic tm n d hashtag description).1 = true ∧
    (set_user_topic (add_topic tm n d hashtag description).2 u n).1 = true ∧
    get_folder_id_for_user
        (set_user_topic (add_topic tm n d hashtag description).2 u n).2 u
      = .ok d := by
  refine ⟨by simp [add_topic, habs], ?_, ?_⟩
  · simp [add_topic, habs, set_user_topic, get_topic]
  · simp [add_topic, habs, set_user_topic, get_topic, get_folder_id_for_user,
      selected_folder_id, get_user_topic, hn]

/-- Witness for C8 (amended): adding "work" to the empty store, selecting
it for user 42, and resolving yields "F1". -/
theorem add_set_resolve_roundtrip_witness :
    get_folder_id_for_user
        (set_user_topic
          (add_topic ⟨[], [], none, [], .stored []⟩ "work" "F1" none none).2 42 "work").2 42
      = .ok "F1" :=
  (add_set_resolve_roundtrip ⟨[], [], none, [], .stored []⟩ 42 "work" "F1" none none
    (by decide) (by decide)).2.2

theorem selected_folder_id_some_iff (tm : TopicManager) (user_id : Nat) (d : String) :
    selected_folder_id tm user_id = some d ↔
      ∃ n t, get_user_topic tm user_id = some n ∧ n ≠ "" ∧ get_topic tm n = some t ∧
        t.drive_folder_id = some d := by
  unfold selected_folder_id
  cases h1 : get_user_topic tm user_id with
  | none => simp
  | some n =>
    by_cases hn : n = ""
    · subst hn
      simp
    · cases h2 : get_topic tm n with
      | none => simp [hn, h2]
      | some t => simp [hn, h2]

theorem selected_folder_id_none_iff (tm : TopicManager) (user_id : Nat) :
    selected_folder_id tm user_id = none ↔
      ¬ ∃ n t d, get_user_topic tm user_id = some n ∧ n ≠ "" ∧ get_topic tm n = some t ∧
        t.drive_folder_id = some d := by
  constructor
  · rintro h ⟨n, t, d, h1, h2, h3, h4⟩
    have hs := (selected_folder_id_some_iff tm user_id d).mpr ⟨n, t, h1, h2, h3, h4⟩
    rw [h] at hs
    cases hs
  · intro h
    cases hs : selected_folder_id tm user_id with
    | none => rfl
    | some d =>
      obtain ⟨n, t, h1, h2, h3, h4⟩ := (selected_folder_id_some_iff tm user_id d).mp hs
      exact absurd ⟨n, t, d, h1, h2, h3, h4⟩ h

/-- Counterexample to C4: a user selection exists (user 42 maps to the
empty topic name, a state reachable through the public API), the selected
topic is in the catalog with destination "F1", yet `get_folder_id_for_user`
raises instead of returning that destination, because `if topic_name:`
treats the empty string as no selection. -/
theorem resolve_destination_cex :
    get_user_topic
        (set_user_topic (add_topic ⟨[], [], none, [], .stored []⟩ "" "F1" none none).2
          42 "").2 42
      = some "" ∧
    get_topic
        (set_user_topic (add_topic ⟨[], [], none, [], .stored []⟩ "" "F1" none none).2
          42 "").2 ""
      = some ⟨"", some "F1", some "#", some " related content"⟩ ∧
    get_folder_id_for_user
        (set_user_topic (add_topic ⟨[], [], none, [], .stored []⟩ "" "F1" none none).2
          42 "").2 42
      = .error () := by
  exact ⟨rfl, rfl, rfl⟩

/-- C4 as amended: `get_folder_id_for_user` returns the selected topic's
destination when the stored selection is a NON-EMPTY name whose catalog
entry has a destination; with no selection it returns the default when
that is configured and non-empty; and it raises exactly when no non-empty
selection resolves to a destination and no non-empty default exists
(Python truthiness: an empty-string selection or default counts as
absent). -/
theorem resolve_destination_amended (tm : TopicManager) (user_id : Nat) :
    (∀ n t d, get_user_topic tm user_id = some n → n ≠ "" → get_topic tm n = some t →
      t.drive_folder_id = some d → get_folder_id_for_user tm user_id = .ok d) ∧
    (∀ d, get_user_topic tm user_id = none → tm.default_folder_id = some d → d ≠ "" →
      get_folder_id_for_user tm user_id = .ok d) ∧
    (get_folder_id_for_user tm user_id = .error () ↔
      (¬ ∃ n t d, get_user_topic tm user_id = some n ∧ n ≠ "" ∧ get_topic tm n = some t ∧
        t.drive_folder_id = some d) ∧
      ∀ d, tm.default_folder_id = some d → d = "") := by
  refine ⟨?_, ?_, ?_⟩
  · intro n t d h1 h2 h3 h4
    have hs : selected_folder_id tm user_id = some d :=
      (selected_folder_id_some_iff tm user_id d).mpr ⟨n, t, h1, h2, h3, h4⟩
    simp [get_folder_id_for_user, hs]
  · intro d h1 h2 h3
    have hs : selected_folder_id tm user_id = none := by
      simp [selected_folder_id, h1]
    simp [get_folder_id_for_user, hs, h2, h3]
  · constructor
    · intro herr
      cases hs : selected_folder_id tm user_id with
      | some fid => simp [get_folder_id_for_user, hs] at herr
      | none =>
        refine ⟨(selected_folder_id_none_iff tm user_id).mp hs, ?_⟩
        intro d hd
        by_contra hne
        simp [get_folder_id_for_user, hs, hd, hne] at herr
    · rintro ⟨hno, hdef⟩
      have hs : selected_folder_id tm user_id = none :=
        (selected_folder_id_none_iff tm user_id).mpr hno
      cases hd : tm.default_folder_id with
      | none => simp [get_folder_id_for_user, hs, hd]
      | some d =>
        have : d = "" := hdef d hd
        subst this
        simp [get_folder_id_for_user, hs, hd]

/-- Witness for C4 (amended): user 5 selected "work", which is in the
catalog with destination "X", so resolution returns "X". -/
theorem resolve_destination_amended_witness :
    get_folder_id_for_user
        ⟨[("work", ⟨"work", some "X", none, none⟩)], [(5, "work")], none, [], .stored []⟩ 5
      = .ok "X" :=
  (resolve_destination_amended
      ⟨[("work", ⟨"work", some "X", none, none⟩)], [(5, "work")], none, [], .stored []⟩ 5).1
    "work" ⟨"work", some "X", none, none⟩ "X" rfl (by decide) rfl rfl

/-- Counterexample to C7: starting the store with a corrupted (malformed)
user-selection file does yield an empty in-memory mapping without
crashing, but the file is NOT freshly rewritten: the exception handler of
`_load_user_states` only resets the in-memory dict, so the corrupted
content stays on disk (only the missing-file branch writes an empty
file). -/
theorem load_user_states_malformed_cex :
    load_user_states .malformed = ([], .malformed) ∧
      (UserFile.malformed ≠ UserFile.stored []) := by
  exact ⟨rfl, by decide⟩

/-- C7 as amended: a corrupted user-selection file yields an empty
in-memory mapping (no crash) with the file left untouched, while a fresh
empty file is written back only when the file is missing. -/
theorem load_user_states_recovery :
    load_user_states .malformed = ([], .malformed) ∧
      load_user_states .absent = ([], .stored []) := by
  exact ⟨rfl, rfl⟩

/-
Upload Orchestrator (src/drive_uploader.py).

Payload bytes are `List Nat`; `len(content)` is the list length.  The
Drive backend is a `DriveState`: an id counter plus the created folders
and files.  The actual network call always succeeds in the model (the
claims under test concern the validation contract, not `BackendFailure`);
an exception raised inside a method leaves previously created backend
objects in place, so every operation returns its result together with the
final backend state.
-/

/-- Validation failures of src/drive_uploader.py 25-39: `FileTooLargeError`
and `MimeNotAllowedError`. -/
inductive UploadError
  | fileTooLarge (size : Nat) (max_size : Nat)
  | mimeNotAllowed (mime_type : String)
deriving DecidableEq

/-- Configuration of a `DriveUploader` (src/drive_uploader.py 47-65):
`max_file_size` and the optional MIME allow-list (`None` = allow all). -/
structure DriveUploader where
  max_file_size : Nat
  allowed_mime_types : Option (List String)
deriving DecidableEq

/-- One uploaded file in the backend: parent folder id, name, bytes, MIME. -/
structure DriveFile where
  parent : String
  name : String
  content : List Nat
  mime_type : Option String
deriving DecidableEq

/-- One folder in the backend: its id, parent id, and name. -/
structure DriveFolder where
  id : String
  parent : String
  name : String
deriving DecidableEq

/-- The Drive backend: fresh-id counter, folders, files. -/
structure DriveState where
  next_id : Nat
  folders : List DriveFolder
  files : List DriveFile
deriving DecidableEq

/-- An item of a media-group batch: `(filename, content_bytes, mime_type)`
as in `upload_media_group`. -/
abbrev UploadItem := String × List Nat × Option String

/-- src/drive_uploader.py 92-95: `_validate_size` raises `FileTooLargeError`
iff the size strictly exceeds the limit. -/
def validate_size (u : DriveUploader) (size : Nat) : Except UploadError Unit :=
  if u.max_file_size < size then .error (.fileTooLarge size u.max_file_size) else .ok ()

/-- src/drive_uploader.py 97-104: `_validate_mime` passes when the
allow-list is unset (`is None`), when the MIME is falsy (`None` or the
empty string), or when it is in the list; otherwise it raises
`MimeNotAllowedError`. -/
def validate_mime (u : DriveUploader) (mime_type : Option String) : Except UploadError Unit :=
  match u.allowed_mime_types with
  | none => .ok ()
  | some allowed =>
      match mime_type with
      | none => .ok ()
      | some m =>
          if m = "" then .ok ()
          else if m ∈ allowed then .ok () else .error (.mimeNotAllowed m)

/-- The validation step as run before any upload (src/drive_uploader.py
119-120 and 224-225): size check first, then MIME check. -/
def validate (u : DriveUploader) (size : Nat) (mime_type : Option String) :
    Except UploadError Unit :=
  match validate_size u size with
  | .error e => .error e
  | .ok _ => validate_mime u mime_type

/-- src/drive_uploader.py 136-149: `create_subfolder` always succeeds and
returns the fresh folder id. -/
def create_subfolder (ds : DriveState) (parent_id name : String) : String × DriveState :=
  ("folder_" ++ toString ds.next_id,
    { ds with
      next_id := ds.next_id + 1
      folders := ds.folders ++ [⟨"folder_" ++ toString ds.next_id, parent_id, name⟩] })

/-- src/drive_uploader.py 106-134: `upload_file_bytes` validates size then
MIME, then creates the file in the backend and returns its id. -/
def upload_file_bytes (u : DriveUploader) (ds : DriveState) (folder_id filename : String)
    (content : List Nat) (mime_type : Option String) :
    DriveState × Except UploadError String :=
  match validate_size u content.length with
  | .error e => (ds, .error e)
  | .ok _ =>
      match validate_mime u mime_type with
      | .error e => (ds, .error e)
      | .ok _ =>
          ({ ds with
              next_id := ds.next_id + 1
              files := ds.files ++ [⟨folder_id, filename, content, mime_type⟩] },
            .ok ("file_" ++ toString ds.next_id))

/-- Whether an item passes both validation checks. -/
def item_ok (u : DriveUploader) (it : UploadItem) : Bool :=
  match validate_size u it.2.1.length, validate_mime u it.2.2 with
  | .ok _, .ok _ => true
  | _, _ => false

/-- The `for filename, content, mime_type in items:` loop of
`upload_media_group` (src/drive_uploader.py 223-226): validate size, then
MIME, then `upload_file_bytes` into the subfolder; the first raised
exception aborts the loop with the backend state reached so far. -/
def upload_media_group_go (u : DriveUploader) (subfolder_id : String) :
    DriveState → List UploadItem → DriveState × Except UploadError Unit
  | ds, [] => (ds, .ok ())
  | ds, (filename, content, mime_type) :: rest =>
      match validate_size u content.length with
      | .error e => (ds, .error e)
      | .ok _ =>
          match validate_mime u mime_type with
          | .error e => (ds, .error e)
          | .ok _ =>
              match upload_file_bytes u ds subfolder_id filename content mime_type with
              | (ds', .ok _) => upload_media_group_go u subfolder_id ds' rest
              | (ds', .error e) => (ds', .error e)

/-- src/drive_uploader.py 204-229: `upload_media_group` creates the
`Album_<timestamp>` subfolder first (the timestamp, `datetime.now()`
formatted, is passed explicitly), then runs the upload loop; on success it
returns the subfolder id. -/
def upload_media_group (u : DriveUploader) (ds : DriveState) (timestamp folder_id : String)
    (items : List UploadItem) : DriveState × Except UploadError String :=
  match create_subfolder ds folder_id ("Album_" ++ timestamp) with
  | (subfolder_id, ds1) =>
      match upload_media_group_go u subfolder_id ds1 items with
      | (ds2, .ok _) => (ds2, .ok subfolder_id)
      | (ds2, .error e) => (ds2, .error e)

theorem item_ok_iff (u : DriveUploader) (it : UploadItem) :
    item_ok u it = true ↔
      validate_size u it.2.1.length = .ok () ∧ validate_mime u it.2.2 = .ok () := by
  cases hs : validate_size u it.2.1.length with
  | error e => simp [item_ok, hs]
  | ok v =>
    cases v
    cases hm : validate_mime u it.2.2 with
    | error e => simp [item_ok, hs, hm]
    | ok w =>
      cases w
      simp [item_ok, hs, hm]

/-- Running the upload loop over valid items followed by a first invalid
one stops at the invalid item with an error: exactly the valid preceding
items are in the backend, in order, and nothing is rolled back. -/
theorem upload_media_group_go_stops (u : DriveUploader) (subfolder_id : String)
    (pre : List UploadItem) (bad : UploadItem) (rest : List UploadItem) (ds : DriveState)
    (hpre : ∀ it ∈ pre, item_ok u it = true) (hbad : item_ok u bad = false) :
    ∃ e, upload_media_group_go u subfolder_id ds (pre ++ bad :: rest) =
      ({ ds with
          next_id := ds.next_id + pre.length
          files := ds.files ++ pre.map (fun it => ⟨subfolder_id, it.1, it.2.1, it.2.2⟩) },
        .error e) := by
  induction pre generalizing ds with
  | nil =>
    obtain ⟨fn, ct, mi⟩ := bad
    cases hs : validate_size u ct.length with
    | error e =>
      exact ⟨e, by simp [upload_media_group_go, hs]⟩
    | ok v =>
      cases v
      cases hm : validate_mime u mi with
      | error e =>
        exact ⟨e, by simp [upload_media_group_go, hs, hm]⟩
      | ok w =>
        cases w
        simp [item_ok, hs, hm] at hbad
  | cons it pre' ih =>
    obtain ⟨fn, ct, mi⟩ := it
    obtain ⟨hs, hm⟩ := (item_ok_iff u (fn, ct, mi)).mp (hpre _ (List.mem_cons_self _ _))
    simp only at hs hm
    obtain ⟨e, he⟩ := ih
      { ds with
        next_id := ds.next_id + 1
        files := ds.files ++ [⟨subfolder_id, fn, ct, mi⟩] }
      (fun x hx => hpre x (List.mem_cons_of_mem _ hx))
    refine ⟨e, ?_⟩
    rw [List.cons_append]
    rw [upload_media_group_go]
    simp only [hs, hm, upload_file_bytes]
    rw [he]
    simp [List.append_assoc]
    omega

/-- C5: if the first failing item of a batch is at position `k` (all items
before it validate, item `k` does not), then the batch fails, the items
before position `k` are uploaded into the new subfolder in order and stay
uploaded, and no item at position `k` or later is uploaded - the batch is
sequentially validated-then-uploaded, nothing is rolled back. -/
theorem upload_media_group_partial_commit (u : DriveUploader) (ds : DriveState)
    (timestamp folder_id : String) (pre : List UploadItem) (bad : UploadItem)
    (rest : List UploadItem)
    (hpre : ∀ it ∈ pre, item_ok u it = true) (hbad : item_ok u bad = false) :
    ∃ e, upload_media_group u ds timestamp folder_id (pre ++ bad :: rest) =
      ({ next_id := ds.next_id + 1 + pre.length
         folders := ds.folders ++
           [⟨"folder_" ++ toString ds.next_id, folder_id, "Album_" ++ timestamp⟩]
         files := ds.files ++
           pre.map (fun it =>
             ⟨"folder_" ++ toString ds.next_id, it.1, it.2.1, it.2.2⟩) },
        .error e) := by
  obtain ⟨e, he⟩ := upload_media_group_go_stops u ("folder_" ++ toString ds.next_id)
    pre bad rest
    { ds with
      next_id := ds.next_id + 1
      folders := ds.folders ++
        [⟨"folder_" ++ toString ds.next_id, folder_id, "Album_" ++ timestamp⟩] }
    hpre hbad
  refine ⟨e, ?_⟩
  rw [upload_media_group, create_subfolder]
  simp only
  rw [he]

/-- Witness for C5: with limit 10 and no allow-list, a three-item batch
whose middle item is oversized fails; only the first item is uploaded and
it remains in the backend next to the new album folder. -/
theorem upload_media_group_partial_commit_witness :
    (upload_media_group ⟨10, none⟩ ⟨0, [], []⟩ "TS" "root"
        [("a.jpg", [1, 2, 3], none),
          ("big.bin", [9, 9, 9, 9, 9, 9, 9, 9, 9, 9, 9], none),
          ("c.txt", [1], none)]).1
      = ⟨2, [⟨"folder_0", "root", "Album_TS"⟩],
          [⟨"folder_0", "a.jpg", [1, 2, 3], none⟩]⟩ := by
  obtain ⟨e, he⟩ := upload_media_group_partial_commit ⟨10, none⟩ ⟨0, [], []⟩ "TS" "root"
    [("a.jpg", [1, 2, 3], none)]
    ("big.bin", [9, 9, 9, 9, 9, 9, 9, 9, 9, 9, 9], none)
    [("c.txt", [1], none)] (by decide) (by decide)
  rw [List.singleton_append] at he
  rw [he]
  rfl

/-- C10: `upload_media_group` creates the `Album_<timestamp>` subfolder
before validating anything, so a batch whose very first item fails
validation fails with zero files uploaded while the freshly created empty
subfolder remains in the backend. -/
theorem upload_media_group_folder_side_effect (u : DriveUploader) (ds : DriveState)
    (timestamp folder_id : String) (bad : UploadItem) (rest : List UploadItem)
    (hbad : item_ok u bad = false) :
    ∃ e, upload_media_group u ds timestamp folder_id (bad :: rest) =
      ({ next_id := ds.next_id + 1
         folders := ds.folders ++
           [⟨"folder_" ++ toString ds.next_id, folder_id, "Album_" ++ timestamp⟩]
         files := ds.files },
        .error e) := by
  obtain ⟨e, he⟩ := upload_media_group_go_stops u ("folder_" ++ toString ds.next_id)
    [] bad rest
    { ds with
      next_id := ds.next_id + 1
      folders := ds.folders ++
        [⟨"folder_" ++ toString ds.next_id, folder_id, "Album_" ++ timestamp⟩] }
    (by intro it h; cases h) hbad
  refine ⟨e, ?_⟩
  rw [upload_media_group, create_subfolder]
  simp only
  rw [List.nil_append] at he
  rw [he]
  simp

/-- Witness for C10: a one-item batch whose item is oversized fails, no
file is uploaded, and the empty album folder exists in the backend. -/
theorem upload_media_group_folder_side_effect_witness :
    (upload_media_group ⟨10, none⟩ ⟨0, [], []⟩ "TS" "root"
        [("big.bin", [9, 9, 9, 9, 9, 9, 9, 9, 9, 9, 9], none)]).1
      = ⟨1, [⟨"folder_0", "root", "Album_TS"⟩], []⟩ := by
  obtain ⟨e, he⟩ := upload_media_group_folder_side_effect ⟨10, none⟩ ⟨0, [], []⟩ "TS" "root"
    ("big.bin", [9, 9, 9, 9, 9, 9, 9, 9, 9, 9, 9], none) [] (by decide)
  rw [he]
  rfl

/-- C6: the size check is unconditional - any size above the limit fails
with the size error for every MIME type; the MIME check always passes when
the allow-list is unset; when it is set, an absent or empty MIME passes and
any non-empty MIME not in the list fails with the MIME error. -/
theorem validate_contract (u : DriveUploader) :
    (∀ size mime_type, u.max_file_size < size →
      validate u size mime_type = .error (.fileTooLarge size u.max_file_size)) ∧
    (u.allowed_mime_types = none →
      ∀ mime_type, validate_mime u mime_type = .ok ()) ∧
    (∀ allowed, u.allowed_mime_types = some allowed →
      validate_mime u none = .ok () ∧
      validate_mime u (some "") = .ok () ∧
      ∀ m, m ≠ "" → m ∉ allowed →
        validate_mime u (some m) = .error (.mimeNotAllowed m)) := by
  refine ⟨?_, ?_, ?_⟩
  · intro size mime_type h
    simp [validate, validate_size, h]
  · intro h mime_type
    simp [validate_mime, h]
  · intro allowed h
    refine ⟨by simp [validate_mime, h], by simp [validate_mime, h], ?_⟩
    intro m hm hmem
    simp [validate_mime, h, hm, hmem]

/-- Witness for C6: with limit 10 and allow-list ["image/png"], size 11 is
rejected even with an allowed MIME; an absent MIME passes; "text/html" is
rejected; with no allow-list an arbitrary MIME passes. -/
theorem validate_contract_witness :
    validate ⟨10, some ["image/png"]⟩ 11 (some "image/png")
        = .error (.fileTooLarge 11 10) ∧
      validate_mime ⟨10, some ["image/png"]⟩ none = .ok () ∧
      validate_mime ⟨10, some ["image/png"]⟩ (some "text/html")
        = .error (.mimeNotAllowed "text/html") ∧
      validate_mime ⟨10, none⟩ (some "anything") = .ok () := by
  refine ⟨(validate_contract ⟨10, some ["image/png"]⟩).1 11 (some "image/png") (by decide),
    ((validate_contract ⟨10, some ["image/png"]⟩).2.2 ["image/png"] rfl).1,
    ((validate_contract ⟨10, some ["image/png"]⟩).2.2 ["image/png"] rfl).2.2
      "text/html" (by decide) (by decide),
    (validate_contract ⟨10, none⟩).2.1 rfl (some "anything")⟩
